import Mathlib

/-!
Verification of the ClipForge export pipeline (`src-tauri/src/utils/ffmpeg.rs`
and `src-tauri/src/lib.rs`) against its natural-language specification.

Shallow embedding conventions:
* Rust `f64` time/volume values are modelled as `ℚ`; every concrete input used
  in a theorem below is exactly representable in binary floating point, so the
  rational arithmetic agrees with the `f64` arithmetic of the source.
* Rust's `Display` rendering of an `f64` is abstracted as a function
  `fmt : ℚ → String`; theorems quantify over it.  Rust `as u32` casts are
  modelled by `u32cast` (truncation toward zero, saturating at `2^32 - 1`).
* The builder `FfmpegBuilder` and `build_args` are translated field by field
  and token by token from the source; `build_args` is written as an explicit
  concatenation of the segments the Rust function pushes in order.
-/

namespace ClipForge

/-- Struct `RawInputConfig` from ffmpeg.rs (pixel format, video size, framerate). -/
structure RawInputConfig where
  pixel_format : String
  video_size : String
  framerate : Nat
  deriving Repr, DecidableEq

/-- The `FfmpegBuilder` struct from ffmpeg.rs, with `f64` fields as `ℚ` and
`u32` fields as `Nat`.  `app_handle` (process plumbing) is omitted: it never
influences `build_args`. -/
structure FfmpegBuilder where
  input : Option String := none
  output : Option String := none
  trim_start : Option ℚ := none
  trim_duration : Option ℚ := none
  scale_width : Option Nat := none
  scale_height : Option Nat := none
  crop_width : Option Nat := none
  crop_height : Option Nat := none
  crop_x : Option Nat := none
  crop_y : Option Nat := none
  video_codec : Option String := none
  audio_codec : Option String := none
  preset : Option String := none
  crf : Option Nat := none
  audio_bitrate : Option String := none
  progress_enabled : Bool := false
  thumbnail_time : Option ℚ := none
  stream_copy : Bool := false
  raw_input : Option RawInputConfig := none
  concat_list : Option String := none
  pixel_format : Option String := none
  scale_pad : Bool := false
  volume : Option ℚ := none
  muted : Bool := false
  deriving Repr, DecidableEq

namespace FfmpegBuilder

/-- Constructor `FfmpegBuilder::new()` — all fields defaulted. -/
def new : FfmpegBuilder := {}

/-- Setter `input(path)`. -/
def setInput (b : FfmpegBuilder) (path : String) : FfmpegBuilder :=
  { b with input := some path }

/-- Setter `output(path)`. -/
def setOutput (b : FfmpegBuilder) (path : String) : FfmpegBuilder :=
  { b with output := some path }

/-- Setter `trim(start, duration)`. -/
def trim (b : FfmpegBuilder) (start duration : ℚ) : FfmpegBuilder :=
  { b with trim_start := some start, trim_duration := some duration }

/-- Setter `scale_with_pad(width, height)`. -/
def scale_with_pad (b : FfmpegBuilder) (width height : Nat) : FfmpegBuilder :=
  { b with scale_width := some width, scale_height := some height, scale_pad := true }

/-- Setter `scale_crop(width, height)`: sets matching scale and crop dims,
clears offsets, clears pad. -/
def scale_crop (b : FfmpegBuilder) (width height : Nat) : FfmpegBuilder :=
  { b with scale_width := some width, scale_height := some height, scale_pad := false,
           crop_width := some width, crop_height := some height,
           crop_x := none, crop_y := none }

/-- Setter `crop(width, height, x, y)`. -/
def crop (b : FfmpegBuilder) (width height : Nat) (x y : Option Nat) : FfmpegBuilder :=
  { b with crop_width := some width, crop_height := some height, crop_x := x, crop_y := y }

/-- Setter `encode()`: libx264 + aac defaults. -/
def encode (b : FfmpegBuilder) : FfmpegBuilder :=
  { b with video_codec := some "libx264", audio_codec := some "aac",
           preset := some "medium", crf := some 23, audio_bitrate := some "128k" }

/-- Setter `stream_copy()`. -/
def setStreamCopy (b : FfmpegBuilder) : FfmpegBuilder :=
  { b with stream_copy := true }

/-- Setter `thumbnail(time)`. -/
def thumbnail (b : FfmpegBuilder) (time : ℚ) : FfmpegBuilder :=
  { b with thumbnail_time := some time }

/-- Setter `concat(list_path)`. -/
def concat (b : FfmpegBuilder) (list_path : String) : FfmpegBuilder :=
  { b with concat_list := some list_path }

/-- Setter `with_progress()`. -/
def with_progress (b : FfmpegBuilder) : FfmpegBuilder :=
  { b with progress_enabled := true }

/-- Setter `volume(vol)`: `vol.max(0.0).min(1.0)` — clamped at assignment. -/
def setVolume (b : FfmpegBuilder) (vol : ℚ) : FfmpegBuilder :=
  { b with volume := some (min (max vol 0) 1) }

/-- Setter `mute()`. -/
def setMute (b : FfmpegBuilder) : FfmpegBuilder :=
  { b with muted := true }

/-- The `is_scale_crop` test inside `build_args` (ffmpeg.rs lines 256-262). -/
def is_scale_crop (b : FfmpegBuilder) : Bool :=
  b.scale_width.isSome && b.scale_height.isSome
    && b.crop_width == b.scale_width && b.crop_height == b.scale_height
    && b.crop_x.isNone && b.crop_y.isNone && !b.scale_pad

/-- The scale-to-cover clause `scale=W:H:force_original_aspect_ratio=increase`
of the `is_scale_crop` filter (ffmpeg.rs line 271). -/
def scaleCoverClause (w h : Nat) : String :=
  "scale=" ++ toString w ++ ":" ++ toString h ++ ":force_original_aspect_ratio=increase"

/-- The centered crop clause `crop=W:H:(iw-W)/2:(ih-H)/2` of the
`is_scale_crop` filter (ffmpeg.rs line 271). -/
def centerCropClause (w h : Nat) : String :=
  "crop=" ++ toString w ++ ":" ++ toString h ++ ":(iw-" ++ toString w ++ ")/2:(ih-"
    ++ toString h ++ ")/2"

/-- The combined scale+crop filter string of the `is_scale_crop` branch:
the rendering of the format string
`scale={}:{}:force_original_aspect_ratio=increase,crop={}:{}:(iw-{})/2:(ih-{})/2`
(ffmpeg.rs lines 270-273), written as its two comma-separated clauses. -/
def scaleCropFilter (w h : Nat) : String :=
  scaleCoverClause w h ++ "," ++ centerCropClause w h

/-- The crop filter of the normal branch (ffmpeg.rs lines 276-287). -/
def cropFilterList (b : FfmpegBuilder) : List String :=
  match b.crop_width, b.crop_height with
  | some cw, some ch =>
    if b.scale_width ≠ some cw ∨ b.scale_height ≠ some ch then
      match b.crop_x, b.crop_y with
      | some x, some y =>
        ["crop=" ++ toString cw ++ ":" ++ toString ch ++ ":" ++ toString x ++ ":" ++ toString y]
      | _, _ =>
        ["crop=" ++ toString cw ++ ":" ++ toString ch ++ ":(iw-" ++ toString cw
          ++ ")/2:(ih-" ++ toString ch ++ ")/2"]
    else []
  | _, _ => []

/-- The scale filter of the normal branch (ffmpeg.rs lines 290-315). -/
def scaleFilterList (b : FfmpegBuilder) : List String :=
  match b.scale_width with
  | none => []
  | some w =>
    if w == 0 then
      ["scale=trunc(iw/2)*2:trunc(ih/2)*2"]
    else if b.scale_pad then
      match b.scale_height with
      | some h =>
        ["scale=" ++ toString w ++ ":" ++ toString h
          ++ ":force_original_aspect_ratio=decrease,pad=" ++ toString w ++ ":" ++ toString h
          ++ ":(ow-iw)/2:(oh-ih)/2:black"]
      | none => ["scale=" ++ toString w ++ ":trunc(ih/2)*2"]
    else if !b.is_scale_crop then
      match b.scale_height with
      | some h => ["scale=" ++ toString w ++ ":" ++ toString h]
      | none => ["scale=" ++ toString w ++ ":trunc(ih/2)*2"]
    else []

/-- The `filters` vector built by `build_args` (ffmpeg.rs lines 253-316). -/
def videoFilters (b : FfmpegBuilder) : List String :=
  if b.is_scale_crop then
    match b.scale_width, b.scale_height with
    | some w, some h => [scaleCropFilter w h]
    | _, _ => []
  else
    b.cropFilterList ++ b.scaleFilterList

/-- The `audio_filters` vector (ffmpeg.rs lines 324-332): mute wins over volume. -/
def audioFilterStrings (fmt : ℚ → String) (b : FfmpegBuilder) : List String :=
  if b.muted then ["volume=0"]
  else
    match b.volume with
    | some vol => ["volume=" ++ fmt vol]
    | none => []

/-- Seek segment (ffmpeg.rs lines 228-237): thumbnail time takes precedence
over trim start for `-ss`; `-t` from trim duration. -/
def seekSegment (fmt : ℚ → String) (b : FfmpegBuilder) : List String :=
  (match b.thumbnail_time, b.trim_start with
   | some time, _ => ["-ss", fmt time]
   | none, some start => ["-ss", fmt start]
   | none, none => []) ++
  (match b.trim_duration with
   | some duration => ["-t", fmt duration]
   | none => [])

/-- Input segment (ffmpeg.rs lines 240-250). -/
def inputSegment (b : FfmpegBuilder) : List String :=
  match b.raw_input with
  | some raw =>
    ["-f", "rawvideo", "-pixel_format", raw.pixel_format, "-video_size", raw.video_size,
     "-framerate", toString raw.framerate, "-i", b.input.getD "pipe:0"]
  | none =>
    match b.input with
    | some i => ["-i", i]
    | none => []

/-- Segment for `-vf` (ffmpeg.rs lines 318-320). -/
def vfSegment (b : FfmpegBuilder) : List String :=
  if b.videoFilters.isEmpty then [] else ["-vf", String.intercalate "," b.videoFilters]

/-- Segment for `-af` (ffmpeg.rs lines 334-338). -/
def afSegment (fmt : ℚ → String) (b : FfmpegBuilder) : List String :=
  if (audioFilterStrings fmt b).isEmpty then []
  else ["-af", String.intercalate "," (audioFilterStrings fmt b)]

/-- Encoding segment (ffmpeg.rs lines 340-372): stream-copy (with the
audio-filter downgrade) or the configured encode profile. -/
def codecSegment (fmt : ℚ → String) (b : FfmpegBuilder) : List String :=
  if b.stream_copy then
    if !(audioFilterStrings fmt b).isEmpty then
      ["-c:v", "copy", "-c:a", "aac", "-avoid_negative_ts", "make_zero"]
    else
      ["-c", "copy", "-avoid_negative_ts", "make_zero"]
  else
    (match b.video_codec with | some c => ["-c:v", c] | none => []) ++
    (match b.preset with | some p => ["-preset", p] | none => []) ++
    (match b.crf with | some c => ["-crf", toString c] | none => []) ++
    (match b.pixel_format with | some f => ["-pix_fmt", f] | none => []) ++
    (match b.audio_codec with | some c => ["-c:a", c] | none => []) ++
    (match b.audio_bitrate with | some r => ["-b:a", r] | none => [])

/-- Thumbnail segment (ffmpeg.rs lines 375-377). -/
def thumbSegment (b : FfmpegBuilder) : List String :=
  if b.thumbnail_time.isSome then ["-vframes", "1"] else []

/-- Progress segment (ffmpeg.rs lines 380-382). -/
def progressSegment (b : FfmpegBuilder) : List String :=
  if b.progress_enabled then ["-progress", "pipe:2"] else []

/-- Output segment (ffmpeg.rs lines 384-386). -/
def outputSegment (b : FfmpegBuilder) : List String :=
  match b.output with
  | some o => ["-y", o]
  | none => []

/-- Concat branch vs. seek/input/filter branch (ffmpeg.rs lines 218-321):
with a concat list the seek, input and video-filter segments are skipped. -/
def mainSegment (fmt : ℚ → String) (b : FfmpegBuilder) : List String :=
  match b.concat_list with
  | some concat_path => ["-f", "concat", "-safe", "0", "-i", concat_path]
  | none => seekSegment fmt b ++ inputSegment b ++ vfSegment b

/-- Function `build_args` (ffmpeg.rs lines 215-389), as the in-order concatenation of
the segments the Rust function pushes. -/
def build_args (fmt : ℚ → String) (b : FfmpegBuilder) : List String :=
  mainSegment fmt b ++ afSegment fmt b ++ codecSegment fmt b
    ++ thumbSegment b ++ progressSegment b ++ outputSegment b

end FfmpegBuilder

/-! ## Progress tracker (ffmpeg.rs `run_with_progress`, lines 628-679) -/

/-- Rust's `f64 as u32` cast: truncation toward zero, negative values to 0,
saturation at `2^32 - 1`. -/
def u32cast (q : ℚ) : Nat :=
  min (Int.toNat ⌊max q 0⌋) (2 ^ 32 - 1)

/-- The `phase_progress` computation (ffmpeg.rs lines 641-645 and 667-671):
`((current_time / total * 100.0).min(100.0)) as u32` when a total duration is
supplied, `0` otherwise. -/
def phase_progress (duration : Option ℚ) (current_time : ℚ) : Nat :=
  match duration with
  | some total => u32cast (min (current_time / total * 100) 100)
  | none => 0

/-- The `overall_progress` computation (ffmpeg.rs lines 648 and 674):
`(progress_offset as f64 + (phase as f64 / 100.0 * progress_range as f64)).min(100.0) as u32`. -/
def overall_progress (progress_offset progress_range : Nat) (phase : Nat) : Nat :=
  u32cast (min ((progress_offset : ℚ) + (phase : ℚ) / 100 * (progress_range : ℚ)) 100)

/-! ## Process execution results (ffmpeg.rs `run` lines 551-583 and the tail of
`run_with_progress` lines 690-708) -/

/-- Error enum `FFmpegError` from ffmpeg.rs. -/
inductive FFmpegError where
  | CommandSpawn : String → FFmpegError
  | ExecutionFailed : String → FFmpegError
  | OutputValidation : String → FFmpegError
  | InvalidPath : String → FFmpegError
  deriving Repr, DecidableEq

/-- The externally determined outcome of one process invocation: whether the
spawn succeeded, the exit status, the captured stderr text, and which files
exist on disk after the process exited. -/
structure ExecEnv where
  spawn_error : Option String
  status_success : Bool
  status_code : Option Int
  stderr_text : String
  existing : List String
  deriving Repr, DecidableEq

/-- Result logic of `FfmpegBuilder::run` (ffmpeg.rs lines 563-583): on a
successful exit status the declared output path must exist, otherwise an
`OutputValidation` error; a failed status yields `ExecutionFailed` carrying
the captured stderr. -/
def FfmpegBuilder.runResult (b : FfmpegBuilder) (env : ExecEnv) : Except FFmpegError String :=
  match env.spawn_error with
  | some e => Except.error (FFmpegError.CommandSpawn e)
  | none =>
    if env.status_success then
      match b.output with
      | some output_path =>
        if output_path ∈ env.existing then Except.ok output_path
        else Except.error (FFmpegError.OutputValidation "Output file was not created")
      | none => Except.ok ""
    else
      Except.error (FFmpegError.ExecutionFailed env.stderr_text)

/-- Result logic of `FfmpegBuilder::run_with_progress` (ffmpeg.rs lines
690-708): same output-existence validation; a failed status yields
`ExecutionFailed` with the exit-code message. -/
def FfmpegBuilder.runWithProgressResult (b : FfmpegBuilder) (env : ExecEnv) :
    Except FFmpegError String :=
  match env.spawn_error with
  | some e => Except.error (FFmpegError.CommandSpawn e)
  | none =>
    if env.status_success then
      match b.output with
      | some output_path =>
        if output_path ∈ env.existing then Except.ok output_path
        else Except.error (FFmpegError.OutputValidation "Output file was not created")
      | none => Except.ok ""
    else
      Except.error (FFmpegError.ExecutionFailed
        ("FFmpeg process exited with code: " ++ toString env.status_code))

/-! ## Multi-clip export orchestrator (lib.rs `export_multi_clips`,
lines 586-684) -/

/-- Scratch name `temp_clip_N.mp4` (lib.rs line 611). -/
def tempClipName (i : Nat) : String :=
  "temp_clip_" ++ toString i ++ ".mp4"

/-- Scratch name `concat_list.txt` (lib.rs line 649). -/
def concatListName : String := "concat_list.txt"

/-- Externally determined outcomes of an `export_multi_clips` run: which
per-clip transcodes succeed, whether creating and writing the concat list
file succeeds, and whether the final concat invocation succeeds. -/
structure ExportEnv where
  clipOk : Nat → Bool
  concatCreateOk : Bool
  concatWriteOk : Bool
  concatOk : Bool

/-- Per-clip progress windows (lib.rs lines 608-646): for each clip,
`progress_offset = (completed / total * 90.0) as u32` and
`progress_range = (duration / total * 90.0) as u32`, where `completed` is the
sum of prior clip durations. -/
def clipWindows (total : ℚ) : List ℚ → ℚ → List (Nat × Nat)
  | [], _ => []
  | duration :: rest, completed =>
    (u32cast (completed / total * 90), u32cast (duration / total * 90))
      :: clipWindows total rest (completed + duration)

/-- Clip durations `trim_end - trim_start` (lib.rs lines 603 and 612). -/
def clipDurations (clips : List (ℚ × ℚ)) : List ℚ :=
  clips.map (fun c => c.2 - c.1)

/-- All progress windows passed to `run_with_progress` during
`export_multi_clips`: one per clip, then the final concat invocation's fixed
window `(90, 10)` (lib.rs line 671). -/
def exportWindows (clips : List (ℚ × ℚ)) : List (Nat × Nat) :=
  clipWindows (clipDurations clips).sum (clipDurations clips) 0 ++ [(90, 10)]

/-- The per-clip transcode loop of `export_multi_clips` (lib.rs lines
610-646), tracking the set of files on disk.  On each successful transcode the
temp file exists (`run_with_progress` validates that); on the first failure
the function returns the error immediately — without removing any temp file
already produced. -/
def transcodeLoop (env : ExportEnv) : Nat → List String → Nat →
    Except String (List String) × List String
  | _, fs, 0 => (Except.ok [], fs)
  | i, fs, Nat.succ k =>
    if env.clipOk i then
      match transcodeLoop env (i + 1) (tempClipName i :: fs) k with
      | (Except.ok temps, fs2) => (Except.ok (tempClipName i :: temps), fs2)
      | (Except.error e, fs2) => (Except.error e, fs2)
    else
      (Except.error ("Failed to process clip " ++ toString i
        ++ ": FFmpeg process exited"), fs)

/-- Function `export_multi_clips` (lib.rs lines 586-684) as a transition on the set of
files on disk.  Faithful control flow: per-clip failures and concat-list I/O
failures return early; the scratch-file cleanup (lib.rs lines 674-678) runs
only after the final concat invocation, on its success and failure alike. -/
def export_multi_clips_fs (env : ExportEnv) (clips : List (ℚ × ℚ))
    (output_path : String) (fs0 : List String) : Except String String × List String :=
  match transcodeLoop env 0 fs0 clips.length with
  | (Except.error e, fs) => (Except.error e, fs)
  | (Except.ok temps, fs) =>
    if env.concatCreateOk then
      let fs1 := concatListName :: fs
      if env.concatWriteOk then
        let concatResult : Except String String :=
          if env.concatOk then Except.ok output_path
          else Except.error "FFmpeg process exited"
        let fs2 := temps.foldl (fun s tp => s.filter (fun q => q ≠ tp)) fs1
        let fs3 := fs2.filter (fun q => q ≠ concatListName)
        (concatResult, fs3)
      else
        (Except.error "Failed to write to concat list", fs1)
    else
      (Except.error "Failed to create concat list file", fs)

/-- The scratch files a multi-clip export job of `n` clips owns: the per-clip
renders and the concat list. -/
def scratchNames (n : Nat) : List String :=
  (List.range n).map tempClipName ++ [concatListName]

/-! ## Helper notions for reasoning about argument lists -/

/-- The token immediately following the first occurrence of `flag`. -/
def tokenAfter : List String → String → Option String
  | [], _ => none
  | x :: rest, flag => if x = flag then rest.head? else tokenAfter rest flag

/-- Whether a token's first character is a dash (i.e., it looks like a flag). -/
def dashToken (s : String) : Bool :=
  match s.data with
  | [] => false
  | c :: _ => c == '-'

/-- A token that cannot be one of the short dash-flags this development
reasons about: either it does not begin with a dash, or it is at least five
characters long (every flag of interest has at most four). -/
def Benign (s : String) : Prop :=
  dashToken s = false ∨ 5 ≤ s.length

/-- The free-form value tokens a builder configuration contributes to its
argument list: paths, codec/preset/bitrate names, rendered numbers. -/
def freeTokens (fmt : ℚ → String) (b : FfmpegBuilder) : List String :=
  b.input.toList ++ b.output.toList ++ b.concat_list.toList
    ++ b.video_codec.toList ++ b.audio_codec.toList ++ b.preset.toList
    ++ b.audio_bitrate.toList ++ b.pixel_format.toList
    ++ (match b.raw_input with
        | some r => [r.pixel_format, r.video_size, toString r.framerate]
        | none => [])
    ++ (b.trim_start.map fmt).toList ++ (b.trim_duration.map fmt).toList
    ++ (b.thumbnail_time.map fmt).toList ++ (b.volume.map fmt).toList
    ++ (b.crf.map toString).toList

/-- A configuration whose free-form value tokens (paths, codec names,
rendered numbers) do not begin with a dash — true of every configuration the
application actually builds. -/
def CleanTokens (fmt : ℚ → String) (b : FfmpegBuilder) : Prop :=
  ∀ s ∈ freeTokens fmt b, dashToken s = false

/-- The concrete rendering function used in witnesses and counterexamples:
the canonical decimal rendering of the rationals that appear there (all of
them integers, so this matches the `f64` rendering of the source). -/
def fmtQ (q : ℚ) : String := toString q

lemma Benign.ne_flag {s t : String} (hb : Benign s) (h1 : dashToken t = true)
    (h2 : t.length ≤ 4) : s ≠ t := by
  rintro rfl
  rcases hb with h | h
  · rw [h] at h1; exact Bool.false_ne_true h1
  · omega

lemma benign_of_dashToken {s : String} (h : dashToken s = false) : Benign s := Or.inl h

lemma benign_of_length {s : String} (h : 5 ≤ s.length) : Benign s := Or.inr h

lemma not_mem_of_cases {seg flags : List String} (hcases : ∀ s ∈ seg, s ∈ flags ∨ Benign s)
    {t : String} (ht : ¬ Benign t) (htf : t ∉ flags) : t ∉ seg := by
  intro h
  rcases hcases t h with h2 | h2
  · exact htf h2
  · exact ht h2

lemma tokenAfter_append {l1 l2 : List String} {flag : String} (h : flag ∉ l1) :
    tokenAfter (l1 ++ l2) flag = tokenAfter l2 flag := by
  induction l1 with
  | nil => rfl
  | cons x rest ih =>
    simp only [List.mem_cons, not_or] at h
    simp only [List.cons_append, tokenAfter, if_neg (Ne.symm h.1)]
    exact ih h.2

lemma length_le_intercalate (l : List String) (a : String) :
    a.length ≤ (String.intercalate.go a "," l).length := by
  induction l generalizing a with
  | nil => exact le_refl _
  | cons x rest ih =>
    calc a.length ≤ (a ++ "," ++ x).length := by
          rw [String.length_append, String.length_append]; omega
      _ ≤ (String.intercalate.go (a ++ "," ++ x) "," rest).length := ih _
      _ = (String.intercalate.go a "," (x :: rest)).length := rfl

lemma intercalate_length_ge {l : List String} (hne : l ≠ [])
    (h : ∀ s ∈ l, 5 ≤ s.length) : 5 ≤ (String.intercalate "," l).length := by
  match l with
  | [] => exact absurd rfl hne
  | a :: rest =>
    have ha : 5 ≤ a.length := h a (by simp)
    calc (5 : Nat) ≤ a.length := ha
      _ ≤ (String.intercalate.go a "," rest).length := length_le_intercalate rest a
      _ = (String.intercalate "," (a :: rest)).length := rfl

lemma benign_mem_free {fmt : ℚ → String} {b : FfmpegBuilder} {s : String}
    (hfree : CleanTokens fmt b) (h : s ∈ freeTokens fmt b) : Benign s :=
  benign_of_dashToken (hfree s h)

/-! ### Lengths of computed filter strings -/

lemma scaleCropFilter_length (w h : Nat) : 5 ≤ (FfmpegBuilder.scaleCropFilter w h).length := by
  have h1 : ("scale=" : String).length = 6 := rfl
  simp only [FfmpegBuilder.scaleCropFilter, FfmpegBuilder.scaleCoverClause,
    FfmpegBuilder.centerCropClause, String.length_append]
  omega

lemma cropFilterList_length (b : FfmpegBuilder) : ∀ s ∈ b.cropFilterList, 5 ≤ s.length := by
  intro s hs
  have h1 : ("crop=" : String).length = 5 := rfl
  unfold FfmpegBuilder.cropFilterList at hs
  split at hs
  · split at hs
    · split at hs
      · simp at hs
        subst hs
        simp only [String.length_append]; omega
      · simp at hs
        subst hs
        simp only [String.length_append]; omega
    · simp at hs
  · simp at hs

lemma scaleFilterList_length (b : FfmpegBuilder) : ∀ s ∈ b.scaleFilterList, 5 ≤ s.length := by
  intro s hs
  have h1 : ("scale=" : String).length = 6 := rfl
  unfold FfmpegBuilder.scaleFilterList at hs
  split at hs
  · simp at hs
  · split at hs
    · simp at hs
      subst hs
      decide
    · split at hs
      · split at hs
        · simp at hs
          subst hs
          simp only [String.length_append]; omega
        · simp at hs
          subst hs
          simp only [String.length_append]; omega
      · split at hs
        · split at hs
          · simp at hs
            subst hs
            simp only [String.length_append]; omega
          · simp at hs
            subst hs
            simp only [String.length_append]; omega
        · simp at hs

lemma videoFilters_length (b : FfmpegBuilder) : ∀ s ∈ b.videoFilters, 5 ≤ s.length := by
  intro s hs
  unfold FfmpegBuilder.videoFilters at hs
  split at hs
  · split at hs
    · simp at hs
      subst hs
      exact scaleCropFilter_length _ _
    · simp at hs
  · rw [List.mem_append] at hs
    rcases hs with hs | hs
    · exact cropFilterList_length b s hs
    · exact scaleFilterList_length b s hs

lemma audioFilterStrings_length (fmt : ℚ → String) (b : FfmpegBuilder) :
    ∀ s ∈ FfmpegBuilder.audioFilterStrings fmt b, 5 ≤ s.length := by
  intro s hs
  have h1 : ("volume=" : String).length = 7 := rfl
  unfold FfmpegBuilder.audioFilterStrings at hs
  split at hs
  · simp at hs
    subst hs
    decide
  · split at hs
    · simp at hs
      subst hs
      simp only [String.length_append]; omega
    · simp at hs

/-! ### Classifying build_args tokens segment by segment -/

lemma seekSegment_subset (fmt : ℚ → String) (b : FfmpegBuilder) :
    ∀ s ∈ FfmpegBuilder.seekSegment fmt b,
      s ∈ (["-ss", "-t"] : List String) ∨ s ∈ freeTokens fmt b := by
  intro s hs
  rcases hth : b.thumbnail_time with _ | time <;> rcases hts : b.trim_start with _ | start <;>
    rcases htd : b.trim_duration with _ | dur <;>
    simp [FfmpegBuilder.seekSegment, hth, hts, htd] at hs <;>
    simp [freeTokens, hth, hts, htd] <;> tauto

lemma inputSegment_subset (fmt : ℚ → String) (b : FfmpegBuilder) :
    ∀ s ∈ FfmpegBuilder.inputSegment b,
      s ∈ (["-f", "rawvideo", "-pixel_format", "-video_size", "-framerate", "-i",
        "pipe:0"] : List String) ∨ s ∈ freeTokens fmt b := by
  intro s hs
  rcases hraw : b.raw_input with _ | raw <;> rcases hin : b.input with _ | i <;>
    simp [FfmpegBuilder.inputSegment, hraw, hin] at hs <;>
    simp [freeTokens, hraw, hin] <;> tauto

lemma vfSegment_cases (b : FfmpegBuilder) :
    ∀ s ∈ FfmpegBuilder.vfSegment b, s = "-vf" ∨ 5 ≤ s.length := by
  intro s hs
  unfold FfmpegBuilder.vfSegment at hs
  split at hs
  · simp at hs
  next hne =>
    simp at hs
    rcases hs with rfl | rfl
    · exact Or.inl rfl
    · refine Or.inr (intercalate_length_ge ?_ (videoFilters_length b))
      intro hnil
      rw [hnil] at hne
      exact hne rfl

lemma afSegment_cases (fmt : ℚ → String) (b : FfmpegBuilder) :
    ∀ s ∈ FfmpegBuilder.afSegment fmt b, s = "-af" ∨ 5 ≤ s.length := by
  intro s hs
  unfold FfmpegBuilder.afSegment at hs
  split at hs
  · simp at hs
  next hne =>
    simp at hs
    rcases hs with rfl | rfl
    · exact Or.inl rfl
    · refine Or.inr (intercalate_length_ge ?_ (audioFilterStrings_length fmt b))
      intro hnil
      rw [hnil] at hne
      exact hne rfl

lemma codecSegment_subset (fmt : ℚ → String) (b : FfmpegBuilder) :
    ∀ s ∈ FfmpegBuilder.codecSegment fmt b,
      s ∈ (["-c", "-c:v", "-c:a", "-avoid_negative_ts", "-preset", "-crf", "-pix_fmt",
        "-b:a", "copy", "aac", "make_zero"] : List String) ∨ s ∈ freeTokens fmt b := by
  intro s hs
  unfold FfmpegBuilder.codecSegment at hs
  split at hs
  · split at hs <;> (simp at hs; rcases hs with rfl | rfl | rfl | rfl | rfl | rfl <;> simp)
  · simp only [List.mem_append] at hs
    rcases hs with ((((h | h) | h) | h) | h) | h
    · rcases hvc : b.video_codec with _ | c <;> simp [hvc] at h <;>
        rcases h with rfl | rfl <;> simp [freeTokens, hvc]
    · rcases hp : b.preset with _ | p <;> simp [hp] at h <;>
        rcases h with rfl | rfl <;> simp [freeTokens, hp]
    · rcases hc : b.crf with _ | c <;> simp [hc] at h <;>
        rcases h with rfl | rfl <;> simp [freeTokens, hc]
    · rcases hf : b.pixel_format with _ | f <;> simp [hf] at h <;>
        rcases h with rfl | rfl <;> simp [freeTokens, hf]
    · rcases hac : b.audio_codec with _ | c <;> simp [hac] at h <;>
        rcases h with rfl | rfl <;> simp [freeTokens, hac]
    · rcases hbr : b.audio_bitrate with _ | r <;> simp [hbr] at h <;>
        rcases h with rfl | rfl <;> simp [freeTokens, hbr]

lemma not_benign_of {t : String} (h1 : dashToken t = true) (h2 : t.length ≤ 4) :
    ¬ Benign t := by
  rintro (h | h)
  · rw [h1] at h; exact Bool.noConfusion h
  · omega

lemma codecSegment_cases (fmt : ℚ → String) (b : FfmpegBuilder) (hfree : CleanTokens fmt b) :
    ∀ s ∈ FfmpegBuilder.codecSegment fmt b,
      s ∈ (["-c", "-c:v", "-c:a", "-avoid_negative_ts", "-preset", "-crf", "-pix_fmt",
        "-b:a"] : List String) ∨ Benign s := by
  intro s hs
  rcases codecSegment_subset fmt b s hs with h | h
  · simp only [List.mem_cons, List.not_mem_nil, or_false] at h
    rcases h with rfl | rfl | rfl | rfl | rfl | rfl | rfl | rfl | rfl | rfl | rfl
    · exact Or.inl (by simp)
    · exact Or.inl (by simp)
    · exact Or.inl (by simp)
    · exact Or.inl (by simp)
    · exact Or.inl (by simp)
    · exact Or.inl (by simp)
    · exact Or.inl (by simp)
    · exact Or.inl (by simp)
    · exact Or.inr (benign_of_dashToken (by decide))
    · exact Or.inr (benign_of_dashToken (by decide))
    · exact Or.inr (benign_of_dashToken (by decide))
  · exact Or.inr (benign_mem_free hfree h)

lemma mainSegment_cases (fmt : ℚ → String) (b : FfmpegBuilder) (hfree : CleanTokens fmt b) :
    ∀ s ∈ FfmpegBuilder.mainSegment fmt b,
      s ∈ (["-f", "-safe", "-i", "-ss", "-t", "-pixel_format", "-video_size", "-framerate",
        "-vf"] : List String) ∨ Benign s := by
  intro s hs
  unfold FfmpegBuilder.mainSegment at hs
  split at hs
  next cp hcp =>
    simp only [List.mem_cons, List.not_mem_nil, or_false] at hs
    rcases hs with rfl | rfl | rfl | rfl | rfl | rfl
    · exact Or.inl (by simp)
    · exact Or.inr (benign_of_dashToken (by decide))
    · exact Or.inl (by simp)
    · exact Or.inr (benign_of_dashToken (by decide))
    · exact Or.inl (by simp)
    · exact Or.inr (benign_of_dashToken (hfree s (by simp [freeTokens, hcp])))
  next hcp =>
    simp only [List.append_assoc, List.mem_append] at hs
    rcases hs with hs | hs | hs
    · rcases seekSegment_subset fmt b s hs with h | h
      · simp only [List.mem_cons, List.not_mem_nil, or_false] at h
        rcases h with rfl | rfl
        · exact Or.inl (by simp)
        · exact Or.inl (by simp)
      · exact Or.inr (benign_mem_free hfree h)
    · rcases inputSegment_subset fmt b s hs with h | h
      · simp only [List.mem_cons, List.not_mem_nil, or_false] at h
        rcases h with rfl | rfl | rfl | rfl | rfl | rfl | rfl
        · exact Or.inl (by simp)
        · exact Or.inr (benign_of_dashToken (by decide))
        · exact Or.inl (by simp)
        · exact Or.inl (by simp)
        · exact Or.inl (by simp)
        · exact Or.inl (by simp)
        · exact Or.inr (benign_of_dashToken (by decide))
      · exact Or.inr (benign_mem_free hfree h)
    · rcases vfSegment_cases b s hs with rfl | h
      · exact Or.inl (by simp)
      · exact Or.inr (benign_of_length h)

/-! ### Per-segment absence lemmas -/

lemma afSegment_not_mem {fmt : ℚ → String} {b : FfmpegBuilder} {t : String}
    (haf : t ≠ "-af") (h2 : t.length ≤ 4) : t ∉ FfmpegBuilder.afSegment fmt b := by
  intro hm
  rcases afSegment_cases fmt b t hm with rfl | h
  · exact haf rfl
  · omega

lemma thumbSegment_not_mem {b : FfmpegBuilder} {t : String}
    (h1 : dashToken t = true) (hth : t ≠ "-vframes") : t ∉ FfmpegBuilder.thumbSegment b := by
  intro hm
  unfold FfmpegBuilder.thumbSegment at hm
  split at hm
  · simp only [List.mem_cons, List.not_mem_nil, or_false] at hm
    rcases hm with rfl | rfl
    · exact hth rfl
    · exact absurd h1 (by decide)
  · simp at hm

lemma progressSegment_not_mem {b : FfmpegBuilder} {t : String}
    (h1 : dashToken t = true) (hpr : t ≠ "-progress") :
    t ∉ FfmpegBuilder.progressSegment b := by
  intro hm
  unfold FfmpegBuilder.progressSegment at hm
  split at hm
  · simp only [List.mem_cons, List.not_mem_nil, or_false] at hm
    rcases hm with rfl | rfl
    · exact hpr rfl
    · exact absurd h1 (by decide)
  · simp at hm

lemma outputSegment_not_mem {fmt : ℚ → String} {b : FfmpegBuilder} {t : String}
    (hfree : CleanTokens fmt b) (h1 : dashToken t = true) (hy : t ≠ "-y") :
    t ∉ FfmpegBuilder.outputSegment b := by
  intro hm
  unfold FfmpegBuilder.outputSegment at hm
  split at hm
  next o ho =>
    simp only [List.mem_cons, List.not_mem_nil, or_false] at hm
    rcases hm with rfl | rfl
    · exact hy rfl
    · rw [hfree t (by simp [freeTokens, ho])] at h1
      exact Bool.false_ne_true h1
  · simp at hm

lemma mainSegment_not_mem {fmt : ℚ → String} {b : FfmpegBuilder} {t : String}
    (hfree : CleanTokens fmt b) (hben : ¬ Benign t)
    (hlits : t ∉ (["-f", "-safe", "-i", "-ss", "-t", "-pixel_format", "-video_size",
      "-framerate", "-vf"] : List String)) : t ∉ FfmpegBuilder.mainSegment fmt b :=
  not_mem_of_cases (mainSegment_cases fmt b hfree) hben hlits

lemma codecSegment_not_mem {fmt : ℚ → String} {b : FfmpegBuilder} {t : String}
    (hfree : CleanTokens fmt b) (hben : ¬ Benign t)
    (hlits : t ∉ (["-c", "-c:v", "-c:a", "-avoid_negative_ts", "-preset", "-crf",
      "-pix_fmt", "-b:a"] : List String)) : t ∉ FfmpegBuilder.codecSegment fmt b :=
  not_mem_of_cases (codecSegment_cases fmt b hfree) hben hlits

/-- Decomposition of membership absence over the six segments of `build_args`. -/
lemma build_args_not_mem {fmt : ℚ → String} {b : FfmpegBuilder} {t : String}
    (hmain : t ∉ FfmpegBuilder.mainSegment fmt b) (haf : t ∉ FfmpegBuilder.afSegment fmt b)
    (hcodec : t ∉ FfmpegBuilder.codecSegment fmt b) (hth : t ∉ FfmpegBuilder.thumbSegment b)
    (hpr : t ∉ FfmpegBuilder.progressSegment b) (hy : t ∉ FfmpegBuilder.outputSegment b) :
    t ∉ FfmpegBuilder.build_args fmt b := by
  intro hm
  simp only [FfmpegBuilder.build_args, List.append_assoc, List.mem_append] at hm
  rcases hm with hm | hm | hm | hm | hm | hm
  · exact hmain hm
  · exact haf hm
  · exact hcodec hm
  · exact hth hm
  · exact hpr hm
  · exact hy hm

/-- The concat branch of `mainSegment` as an explicit token list. -/
lemma mainSegment_concat {fmt : ℚ → String} {b : FfmpegBuilder} {cp : String}
    (hconcat : b.concat_list = some cp) :
    FfmpegBuilder.mainSegment fmt b = ["-f", "concat", "-safe", "0", "-i", cp] := by
  unfold FfmpegBuilder.mainSegment
  rw [hconcat]

/-- In concat mode no dash-flag outside `{-f, -safe, -i}` appears in the main
segment. -/
lemma mainSegment_concat_not_mem {fmt : ℚ → String} {b : FfmpegBuilder} {cp t : String}
    (hfree : CleanTokens fmt b) (hconcat : b.concat_list = some cp)
    (h1 : dashToken t = true)
    (hlits : t ∉ (["-f", "-safe", "-i"] : List String)) :
    t ∉ FfmpegBuilder.mainSegment fmt b := by
  rw [mainSegment_concat hconcat]
  intro hm
  simp only [List.mem_cons, List.not_mem_nil, or_false] at hm
  rcases hm with rfl | rfl | rfl | rfl | rfl | rfl
  · exact hlits (by simp)
  · exact absurd h1 (by decide)
  · exact hlits (by simp)
  · exact absurd h1 (by decide)
  · exact hlits (by simp)
  · rw [hfree t (by simp [freeTokens, hconcat])] at h1
    exact Bool.false_ne_true h1

/-- Stream-copy without audio filters: the codec segment is `-c copy`. -/
lemma codecSegment_sc_noaf {fmt : ℚ → String} {b : FfmpegBuilder}
    (hsc : b.stream_copy = true) (haf : FfmpegBuilder.audioFilterStrings fmt b = []) :
    FfmpegBuilder.codecSegment fmt b = ["-c", "copy", "-avoid_negative_ts", "make_zero"] := by
  unfold FfmpegBuilder.codecSegment
  rw [hsc, haf]
  simp

/-- Stream-copy with audio filters: the codec segment is
`-c:v copy -c:a aac`. -/
lemma codecSegment_sc_af {fmt : ℚ → String} {b : FfmpegBuilder}
    (hsc : b.stream_copy = true) (haf : FfmpegBuilder.audioFilterStrings fmt b ≠ []) :
    FfmpegBuilder.codecSegment fmt b =
      ["-c:v", "copy", "-c:a", "aac", "-avoid_negative_ts", "make_zero"] := by
  unfold FfmpegBuilder.codecSegment
  rw [hsc]
  have : (FfmpegBuilder.audioFilterStrings fmt b).isEmpty = false := by
    rcases hl : FfmpegBuilder.audioFilterStrings fmt b with _ | ⟨x, xs⟩
    · exact absurd hl haf
    · rfl
  rw [this]
  simp

/-- The audio-filter list is empty iff neither mute nor a volume factor is
configured. -/
lemma audioFilterStrings_eq_nil {fmt : ℚ → String} {b : FfmpegBuilder}
    (hmute : b.muted = false) (hvol : b.volume = none) :
    FfmpegBuilder.audioFilterStrings fmt b = [] := by
  unfold FfmpegBuilder.audioFilterStrings
  rw [hmute, hvol]
  simp

lemma audioFilterStrings_muted {fmt : ℚ → String} {b : FfmpegBuilder}
    (hmute : b.muted = true) :
    FfmpegBuilder.audioFilterStrings fmt b = ["volume=0"] := by
  unfold FfmpegBuilder.audioFilterStrings
  rw [hmute]
  simp

lemma audioFilterStrings_vol {fmt : ℚ → String} {b : FfmpegBuilder} {v : ℚ}
    (hmute : b.muted = false) (hvol : b.volume = some v) :
    FfmpegBuilder.audioFilterStrings fmt b = ["volume=" ++ fmt v] := by
  unfold FfmpegBuilder.audioFilterStrings
  rw [hmute, hvol]
  simp

lemma audioFilterStrings_ne_nil {fmt : ℚ → String} {b : FfmpegBuilder}
    (h : b.muted = true ∨ b.volume.isSome = true) :
    FfmpegBuilder.audioFilterStrings fmt b ≠ [] := by
  rcases hmute : b.muted with _ | _
  · rcases h with h | h
    · rw [hmute] at h; exact Bool.noConfusion h
    · obtain ⟨v, hv⟩ := Option.isSome_iff_exists.mp h
      rw [audioFilterStrings_vol hmute hv]
      simp
  · rw [audioFilterStrings_muted hmute]
    simp

lemma seekSegment_not_mem {fmt : ℚ → String} {b : FfmpegBuilder} {t : String}
    (hfree : CleanTokens fmt b) (h1 : dashToken t = true)
    (hss : t ≠ "-ss") (hts : t ≠ "-t") : t ∉ FfmpegBuilder.seekSegment fmt b := by
  intro hm
  rcases seekSegment_subset fmt b t hm with h | h
  · simp only [List.mem_cons, List.not_mem_nil, or_false] at h
    rcases h with rfl | rfl
    · exact hss rfl
    · exact hts rfl
  · rw [hfree t h] at h1
    exact Bool.noConfusion h1

lemma inputSegment_not_mem {fmt : ℚ → String} {b : FfmpegBuilder} {t : String}
    (hfree : CleanTokens fmt b) (h1 : dashToken t = true)
    (hlits : t ∉ (["-f", "-pixel_format", "-video_size", "-framerate", "-i"] : List String)) :
    t ∉ FfmpegBuilder.inputSegment b := by
  intro hm
  rcases inputSegment_subset fmt b t hm with h | h
  · simp only [List.mem_cons, List.not_mem_nil, or_false] at h
    rcases h with rfl | rfl | rfl | rfl | rfl | rfl | rfl
    · exact hlits (by simp)
    · exact absurd h1 (by decide)
    · exact hlits (by simp)
    · exact hlits (by simp)
    · exact hlits (by simp)
    · exact hlits (by simp)
    · exact absurd h1 (by decide)
  · rw [hfree t h] at h1
    exact Bool.noConfusion h1

lemma vfSegment_not_mem {b : FfmpegBuilder} {t : String}
    (hvf : t ≠ "-vf") (h2 : t.length ≤ 4) : t ∉ FfmpegBuilder.vfSegment b := by
  intro hm
  rcases vfSegment_cases b t hm with rfl | h
  · exact hvf rfl
  · omega

/-! ## The claims -/

/-- Claim C3: with `stream_copy` set and no audio filter, the argument list
contains the pair `-c copy` and neither `-c:v` nor `-c:a`; with an audio
filter it contains `-c:v copy` and `-c:a aac` and never the plain `-c copy`
pair.  Quantified over configurations whose free-form value tokens (paths,
codec names, rendered numbers) do not begin with a dash. -/
theorem claim_C3 (fmt : ℚ → String) (b : FfmpegBuilder)
    (hfree : CleanTokens fmt b) (hsc : b.stream_copy = true) :
    (b.muted = false → b.volume = none →
      List.IsInfix ["-c", "copy"] (FfmpegBuilder.build_args fmt b) ∧
      "-c:v" ∉ FfmpegBuilder.build_args fmt b ∧
      "-c:a" ∉ FfmpegBuilder.build_args fmt b) ∧
    ((b.muted = true ∨ b.volume.isSome = true) →
      List.IsInfix ["-c:v", "copy"] (FfmpegBuilder.build_args fmt b) ∧
      List.IsInfix ["-c:a", "aac"] (FfmpegBuilder.build_args fmt b) ∧
      ¬ List.IsInfix ["-c", "copy"] (FfmpegBuilder.build_args fmt b)) := by
  constructor
  · intro hmute hvol
    have hcodec : FfmpegBuilder.codecSegment fmt b
        = ["-c", "copy", "-avoid_negative_ts", "make_zero"] :=
      codecSegment_sc_noaf hsc (audioFilterStrings_eq_nil hmute hvol)
    refine ⟨?_, ?_, ?_⟩
    · refine ⟨FfmpegBuilder.mainSegment fmt b ++ FfmpegBuilder.afSegment fmt b,
        ["-avoid_negative_ts", "make_zero"] ++ FfmpegBuilder.thumbSegment b
          ++ FfmpegBuilder.progressSegment b ++ FfmpegBuilder.outputSegment b, ?_⟩
      simp [FfmpegBuilder.build_args, hcodec]
    · refine build_args_not_mem
        (mainSegment_not_mem hfree (not_benign_of (by decide) (by decide)) (by decide))
        (afSegment_not_mem (by decide) (by decide)) ?_
        (thumbSegment_not_mem (by decide) (by decide))
        (progressSegment_not_mem (by decide) (by decide))
        (outputSegment_not_mem hfree (by decide) (by decide))
      rw [hcodec]
      decide
    · refine build_args_not_mem
        (mainSegment_not_mem hfree (not_benign_of (by decide) (by decide)) (by decide))
        (afSegment_not_mem (by decide) (by decide)) ?_
        (thumbSegment_not_mem (by decide) (by decide))
        (progressSegment_not_mem (by decide) (by decide))
        (outputSegment_not_mem hfree (by decide) (by decide))
      rw [hcodec]
      decide
  · intro haf
    have hcodec : FfmpegBuilder.codecSegment fmt b
        = ["-c:v", "copy", "-c:a", "aac", "-avoid_negative_ts", "make_zero"] :=
      codecSegment_sc_af hsc (audioFilterStrings_ne_nil haf)
    have hnc : "-c" ∉ FfmpegBuilder.build_args fmt b := by
      refine build_args_not_mem
        (mainSegment_not_mem hfree (not_benign_of (by decide) (by decide)) (by decide))
        (afSegment_not_mem (by decide) (by decide)) ?_
        (thumbSegment_not_mem (by decide) (by decide))
        (progressSegment_not_mem (by decide) (by decide))
        (outputSegment_not_mem hfree (by decide) (by decide))
      rw [hcodec]
      decide
    refine ⟨?_, ?_, ?_⟩
    · refine ⟨FfmpegBuilder.mainSegment fmt b ++ FfmpegBuilder.afSegment fmt b,
        ["-c:a", "aac", "-avoid_negative_ts", "make_zero"] ++ FfmpegBuilder.thumbSegment b
          ++ FfmpegBuilder.progressSegment b ++ FfmpegBuilder.outputSegment b, ?_⟩
      simp [FfmpegBuilder.build_args, hcodec]
    · refine ⟨FfmpegBuilder.mainSegment fmt b ++ FfmpegBuilder.afSegment fmt b
          ++ ["-c:v", "copy"],
        ["-avoid_negative_ts", "make_zero"] ++ FfmpegBuilder.thumbSegment b
          ++ FfmpegBuilder.progressSegment b ++ FfmpegBuilder.outputSegment b, ?_⟩
      simp [FfmpegBuilder.build_args, hcodec]
    · intro hinf
      exact hnc (hinf.subset (by simp))

/-- Claim C3 witness: a concrete stream-copy configuration without audio
filters. -/
theorem claim_C3_witness :
    List.IsInfix ["-c", "copy"]
      (FfmpegBuilder.build_args fmtQ
        (((FfmpegBuilder.new.setInput "in.mp4").setOutput "out.mp4").setStreamCopy)) ∧
    "-c:v" ∉ FfmpegBuilder.build_args fmtQ
      (((FfmpegBuilder.new.setInput "in.mp4").setOutput "out.mp4").setStreamCopy) ∧
    "-c:a" ∉ FfmpegBuilder.build_args fmtQ
      (((FfmpegBuilder.new.setInput "in.mp4").setOutput "out.mp4").setStreamCopy) :=
  (claim_C3 fmtQ (((FfmpegBuilder.new.setInput "in.mp4").setOutput "out.mp4").setStreamCopy)
    (by unfold CleanTokens; decide) rfl).1 rfl rfl

/-- Claim C4: with a concat list set, the built argument list contains none
of `-ss`, `-t`, `-vf`, whatever other builder methods were called. -/
theorem claim_C4 (fmt : ℚ → String) (b : FfmpegBuilder) (cp : String)
    (hfree : CleanTokens fmt b) (hconcat : b.concat_list = some cp) :
    "-ss" ∉ FfmpegBuilder.build_args fmt b ∧ "-t" ∉ FfmpegBuilder.build_args fmt b ∧
      "-vf" ∉ FfmpegBuilder.build_args fmt b := by
  refine ⟨?_, ?_, ?_⟩ <;>
    exact build_args_not_mem
      (mainSegment_concat_not_mem hfree hconcat (by decide) (by decide))
      (afSegment_not_mem (by decide) (by decide))
      (codecSegment_not_mem hfree (not_benign_of (by decide) (by decide)) (by decide))
      (thumbSegment_not_mem (by decide) (by decide))
      (progressSegment_not_mem (by decide) (by decide))
      (outputSegment_not_mem hfree (by decide) (by decide))

/-- Claim C4 witness: a concrete concat configuration that had trim, scale
and thumbnail set before `.concat`. -/
theorem claim_C4_witness :
    "-ss" ∉ FfmpegBuilder.build_args fmtQ
      (((((FfmpegBuilder.new.setInput "a.mp4").trim 1 2).thumbnail 3).scale_with_pad 1280
        720).concat "list.txt") ∧
    "-t" ∉ FfmpegBuilder.build_args fmtQ
      (((((FfmpegBuilder.new.setInput "a.mp4").trim 1 2).thumbnail 3).scale_with_pad 1280
        720).concat "list.txt") ∧
    "-vf" ∉ FfmpegBuilder.build_args fmtQ
      (((((FfmpegBuilder.new.setInput "a.mp4").trim 1 2).thumbnail 3).scale_with_pad 1280
        720).concat "list.txt") :=
  claim_C4 fmtQ
    (((((FfmpegBuilder.new.setInput "a.mp4").trim 1 2).thumbnail 3).scale_with_pad 1280
      720).concat "list.txt") "list.txt" (by unfold CleanTokens; decide) rfl

/-- Claim C5: in crop-to-fill mode (matching scale/crop dims, no offsets, no
pad; concat unset, per the spec invariant that concat excludes filter
fields), the argument list holds exactly one `-vf`, whose value is the
combined cover-scale clause and centered-crop clause — not a standalone crop
filter. -/
theorem claim_C5 (fmt : ℚ → String) (b : FfmpegBuilder) (w h : Nat)
    (hfree : CleanTokens fmt b)
    (h1 : b.scale_width = some w) (h2 : b.scale_height = some h)
    (h3 : b.crop_width = some w) (h4 : b.crop_height = some h)
    (h5 : b.crop_x = none) (h6 : b.crop_y = none) (h7 : b.scale_pad = false)
    (h8 : b.concat_list = none) :
    (FfmpegBuilder.build_args fmt b).count "-vf" = 1 ∧
    tokenAfter (FfmpegBuilder.build_args fmt b) "-vf"
      = some (FfmpegBuilder.scaleCoverClause w h ++ ","
          ++ FfmpegBuilder.centerCropClause w h) ∧
    b.videoFilters = [FfmpegBuilder.scaleCropFilter w h] := by
  have hisc : b.is_scale_crop = true := by
    simp [FfmpegBuilder.is_scale_crop, h1, h2, h3, h4, h5, h6, h7]
  have hvf : b.videoFilters = [FfmpegBuilder.scaleCropFilter w h] := by
    unfold FfmpegBuilder.videoFilters
    rw [hisc, h1, h2]
    simp
  have hvfseg : FfmpegBuilder.vfSegment b = ["-vf", FfmpegBuilder.scaleCropFilter w h] := by
    unfold FfmpegBuilder.vfSegment
    rw [hvf]
    rfl
  have hne : FfmpegBuilder.scaleCropFilter w h ≠ "-vf" := by
    have hl := scaleCropFilter_length w h
    intro he
    rw [he] at hl
    revert hl
    decide
  have hargs : FfmpegBuilder.build_args fmt b
      = FfmpegBuilder.seekSegment fmt b ++ (FfmpegBuilder.inputSegment b
        ++ (FfmpegBuilder.vfSegment b ++ (FfmpegBuilder.afSegment fmt b
        ++ (FfmpegBuilder.codecSegment fmt b ++ (FfmpegBuilder.thumbSegment b
        ++ (FfmpegBuilder.progressSegment b ++ FfmpegBuilder.outputSegment b)))))) := by
    unfold FfmpegBuilder.build_args FfmpegBuilder.mainSegment
    rw [h8]
    simp [List.append_assoc]
  have hseek : "-vf" ∉ FfmpegBuilder.seekSegment fmt b :=
    seekSegment_not_mem hfree (by decide) (by decide) (by decide)
  have hinput : "-vf" ∉ FfmpegBuilder.inputSegment b :=
    @inputSegment_not_mem fmt b "-vf" hfree (by decide) (by decide)
  refine ⟨?_, ?_, hvf⟩
  · rw [hargs]
    simp only [List.count_append]
    rw [List.count_eq_zero.mpr hseek, List.count_eq_zero.mpr hinput,
      List.count_eq_zero.mpr (@afSegment_not_mem fmt b "-vf" (by decide) (by decide)),
      List.count_eq_zero.mpr
        (codecSegment_not_mem hfree (not_benign_of (by decide) (by decide)) (by decide)),
      List.count_eq_zero.mpr (@thumbSegment_not_mem b "-vf" (by decide) (by decide)),
      List.count_eq_zero.mpr (@progressSegment_not_mem b "-vf" (by decide) (by decide)),
      List.count_eq_zero.mpr (outputSegment_not_mem hfree (by decide) (by decide)), hvfseg]
    simp [List.count_cons, Ne.symm hne]
  · rw [hargs, tokenAfter_append hseek, tokenAfter_append hinput, hvfseg]
    simp [tokenAfter, FfmpegBuilder.scaleCropFilter]

/-- Claim C5 witness: scale_crop 640×360 on a plain input. -/
theorem claim_C5_witness :
    (FfmpegBuilder.build_args fmtQ
      ((FfmpegBuilder.new.setInput "a.mp4").scale_crop 640 360)).count "-vf" = 1 ∧
    tokenAfter
      (FfmpegBuilder.build_args fmtQ
        ((FfmpegBuilder.new.setInput "a.mp4").scale_crop 640 360)) "-vf"
      = some (FfmpegBuilder.scaleCoverClause 640 360 ++ ","
          ++ FfmpegBuilder.centerCropClause 640 360) ∧
    ((FfmpegBuilder.new.setInput "a.mp4").scale_crop 640 360).videoFilters
      = [FfmpegBuilder.scaleCropFilter 640 360] :=
  claim_C5 fmtQ ((FfmpegBuilder.new.setInput "a.mp4").scale_crop 640 360) 640 360
    (by unfold CleanTokens; decide) rfl rfl rfl rfl rfl rfl rfl rfl

lemma af_tokenAfter {fmt : ℚ → String} {b : FfmpegBuilder} {x : String}
    (hmain : "-af" ∉ FfmpegBuilder.mainSegment fmt b)
    (hx : FfmpegBuilder.audioFilterStrings fmt b = [x]) :
    tokenAfter (FfmpegBuilder.build_args fmt b) "-af" = some x := by
  have hseg : FfmpegBuilder.afSegment fmt b = ["-af", x] := by
    unfold FfmpegBuilder.afSegment
    rw [hx]
    rfl
  have hargs : FfmpegBuilder.build_args fmt b
      = FfmpegBuilder.mainSegment fmt b ++ (FfmpegBuilder.afSegment fmt b
        ++ (FfmpegBuilder.codecSegment fmt b ++ (FfmpegBuilder.thumbSegment b
        ++ (FfmpegBuilder.progressSegment b ++ FfmpegBuilder.outputSegment b)))) := by
    unfold FfmpegBuilder.build_args
    simp [List.append_assoc]
  rw [hargs, tokenAfter_append hmain, hseg]
  simp [tokenAfter]

lemma af_mem {fmt : ℚ → String} {b : FfmpegBuilder} {x : String}
    (hx : FfmpegBuilder.audioFilterStrings fmt b = [x]) :
    "-af" ∈ FfmpegBuilder.build_args fmt b := by
  have hseg : FfmpegBuilder.afSegment fmt b = ["-af", x] := by
    unfold FfmpegBuilder.afSegment
    rw [hx]
    rfl
  unfold FfmpegBuilder.build_args
  simp [List.mem_append, hseg]

/-- Claim C8 (amended): provided no thumbnail seek is set (it takes
precedence for `-ss`) and no concat list is configured, the token after
`-ss` is the rendering of the trim start and the token after `-t` is the
rendering of the trim duration. -/
theorem claim_C8 (fmt : ℚ → String) (b : FfmpegBuilder) (s d : ℚ)
    (hfree : CleanTokens fmt b)
    (hs : b.trim_start = some s) (hd : b.trim_duration = some d)
    (hth : b.thumbnail_time = none) (hc : b.concat_list = none) :
    tokenAfter (FfmpegBuilder.build_args fmt b) "-ss" = some (fmt s) ∧
    tokenAfter (FfmpegBuilder.build_args fmt b) "-t" = some (fmt d) := by
  have hseek : FfmpegBuilder.seekSegment fmt b = ["-ss", fmt s, "-t", fmt d] := by
    unfold FfmpegBuilder.seekSegment
    rw [hth, hs, hd]
    rfl
  have hargs : FfmpegBuilder.build_args fmt b
      = FfmpegBuilder.seekSegment fmt b ++ (FfmpegBuilder.inputSegment b
        ++ (FfmpegBuilder.vfSegment b ++ (FfmpegBuilder.afSegment fmt b
        ++ (FfmpegBuilder.codecSegment fmt b ++ (FfmpegBuilder.thumbSegment b
        ++ (FfmpegBuilder.progressSegment b ++ FfmpegBuilder.outputSegment b)))))) := by
    unfold FfmpegBuilder.build_args FfmpegBuilder.mainSegment
    rw [hc]
    simp [List.append_assoc]
  have hnes : fmt s ≠ "-t" :=
    (benign_of_dashToken (hfree _ (by simp [freeTokens, hs]))).ne_flag (by decide) (by decide)
  constructor
  · rw [hargs, hseek]
    simp [tokenAfter]
  · rw [hargs, hseek]
    simp [tokenAfter, hnes]

/-- Claim C8 counterexample: with a thumbnail time also set, the token after
`-ss` is the thumbnail time, not the trim start. -/
theorem claim_C8_counterexample :
    tokenAfter
      (FfmpegBuilder.build_args fmtQ
        (((FfmpegBuilder.new.setInput "a.mp4").trim 1 2).thumbnail 5)) "-ss"
      = some (fmtQ 5) ∧ fmtQ 5 ≠ fmtQ 1 := by
  constructor
  · decide
  · decide

/-- Claim C8 witness: trim(1, 2) with no thumbnail and no concat. -/
theorem claim_C8_witness :
    tokenAfter
      (FfmpegBuilder.build_args fmtQ ((FfmpegBuilder.new.setInput "a.mp4").trim 1 2)) "-ss"
      = some (fmtQ 1) ∧
    tokenAfter
      (FfmpegBuilder.build_args fmtQ ((FfmpegBuilder.new.setInput "a.mp4").trim 1 2)) "-t"
      = some (fmtQ 2) :=
  claim_C8 fmtQ ((FfmpegBuilder.new.setInput "a.mp4").trim 1 2) 1 2
    (by unfold CleanTokens; decide) rfl rfl rfl rfl

/-- Claim C9: mute emits `-af volume=0`; otherwise a set volume factor emits
`-af volume=<factor>`; the volume setter clamps its argument into [0,1]; and
the audio-filter chain never holds both a mute and a volume filter. -/
theorem claim_C9 (fmt : ℚ → String) (b : FfmpegBuilder) (v w : ℚ)
    (hfree : CleanTokens fmt b) :
    ((FfmpegBuilder.setVolume b w).volume = some (min (max w 0) 1) ∧
      0 ≤ min (max w 0) 1 ∧ min (max w 0) 1 ≤ 1) ∧
    (b.muted = true →
      tokenAfter (FfmpegBuilder.build_args fmt b) "-af" = some "volume=0") ∧
    (b.muted = false → b.volume = some v →
      tokenAfter (FfmpegBuilder.build_args fmt b) "-af" = some ("volume=" ++ fmt v)) ∧
    (FfmpegBuilder.audioFilterStrings fmt b).length ≤ 1 := by
  have hmain : "-af" ∉ FfmpegBuilder.mainSegment fmt b :=
    mainSegment_not_mem hfree (not_benign_of (by decide) (by decide)) (by decide)
  refine ⟨⟨rfl, le_min (le_max_right w 0) zero_le_one, min_le_right _ _⟩, ?_, ?_, ?_⟩
  · intro hmute
    exact af_tokenAfter hmain (audioFilterStrings_muted hmute)
  · intro hmute hvol
    exact af_tokenAfter hmain (audioFilterStrings_vol hmute hvol)
  · unfold FfmpegBuilder.audioFilterStrings
    split
    · simp
    · split <;> simp

/-- Claim C9 witness: a muted configuration. -/
theorem claim_C9_witness :
    ((FfmpegBuilder.setVolume
        (((FfmpegBuilder.new.setInput "a.mp4").setMute).setOutput "o.mp4") 2).volume
      = some (min (max 2 0) 1) ∧
      (0 : ℚ) ≤ min (max 2 0) 1 ∧ (min (max 2 0) 1 : ℚ) ≤ 1) ∧
    ((((FfmpegBuilder.new.setInput "a.mp4").setMute).setOutput "o.mp4").muted = true →
      tokenAfter
        (FfmpegBuilder.build_args fmtQ
          (((FfmpegBuilder.new.setInput "a.mp4").setMute).setOutput "o.mp4")) "-af"
        = some "volume=0") ∧
    ((((FfmpegBuilder.new.setInput "a.mp4").setMute).setOutput "o.mp4").muted = false →
      (((FfmpegBuilder.new.setInput "a.mp4").setMute).setOutput "o.mp4").volume = some 1 →
      tokenAfter
        (FfmpegBuilder.build_args fmtQ
          (((FfmpegBuilder.new.setInput "a.mp4").setMute).setOutput "o.mp4")) "-af"
        = some ("volume=" ++ fmtQ 1)) ∧
    (FfmpegBuilder.audioFilterStrings fmtQ
      (((FfmpegBuilder.new.setInput "a.mp4").setMute).setOutput "o.mp4")).length ≤ 1 :=
  claim_C9 fmtQ (((FfmpegBuilder.new.setInput "a.mp4").setMute).setOutput "o.mp4") 1 2
    (by unfold CleanTokens; decide)

/-- Claim C10: in concat mode a configured audio filter is still emitted:
the argument list contains `-af` with the mute or volume filter value. -/
theorem claim_C10 (fmt : ℚ → String) (b : FfmpegBuilder) (cp : String)
    (hfree : CleanTokens fmt b) (hconcat : b.concat_list = some cp)
    (haf : b.muted = true ∨ b.volume.isSome = true) :
    "-af" ∈ FfmpegBuilder.build_args fmt b ∧
    (b.muted = true →
      tokenAfter (FfmpegBuilder.build_args fmt b) "-af" = some "volume=0") ∧
    (∀ v : ℚ, b.muted = false → b.volume = some v →
      tokenAfter (FfmpegBuilder.build_args fmt b) "-af" = some ("volume=" ++ fmt v)) := by
  have hmain : "-af" ∉ FfmpegBuilder.mainSegment fmt b :=
    mainSegment_concat_not_mem hfree hconcat (by decide) (by decide)
  refine ⟨?_, ?_, ?_⟩
  · rcases hmute : b.muted with _ | _
    · rcases hv : b.volume with _ | v
      · exfalso
        rcases haf with h | h
        · rw [hmute] at h; exact Bool.noConfusion h
        · rw [hv] at h; exact Bool.noConfusion h
      · exact af_mem (audioFilterStrings_vol hmute hv)
    · exact af_mem (audioFilterStrings_muted hmute)
  · intro hmute
    exact af_tokenAfter hmain (audioFilterStrings_muted hmute)
  · intro v hmute hvol
    exact af_tokenAfter hmain (audioFilterStrings_vol hmute hvol)

/-- Claim C10 witness: concat plus a volume filter. -/
theorem claim_C10_witness :
    "-af" ∈ FfmpegBuilder.build_args fmtQ
      (((FfmpegBuilder.new.concat "l.txt").setVolume 1).setOutput "o.mp4") ∧
    ((((FfmpegBuilder.new.concat "l.txt").setVolume 1).setOutput "o.mp4").muted = true →
      tokenAfter
        (FfmpegBuilder.build_args fmtQ
          (((FfmpegBuilder.new.concat "l.txt").setVolume 1).setOutput "o.mp4")) "-af"
        = some "volume=0") ∧
    (∀ v : ℚ,
      (((FfmpegBuilder.new.concat "l.txt").setVolume 1).setOutput "o.mp4").muted = false →
      (((FfmpegBuilder.new.concat "l.txt").setVolume 1).setOutput "o.mp4").volume = some v →
      tokenAfter
        (FfmpegBuilder.build_args fmtQ
          (((FfmpegBuilder.new.concat "l.txt").setVolume 1).setOutput "o.mp4")) "-af"
        = some ("volume=" ++ fmtQ v)) :=
  claim_C10 fmtQ (((FfmpegBuilder.new.concat "l.txt").setVolume 1).setOutput "o.mp4")
    "l.txt" (by unfold CleanTokens; decide) rfl (Or.inr rfl)

lemma u32cast_eq {q : ℚ} (h0 : 0 ≤ q) (h1 : q ≤ 100) : (u32cast q : ℤ) = ⌊q⌋ := by
  unfold u32cast
  rw [max_eq_left h0]
  have hf0 : 0 ≤ ⌊q⌋ := Int.floor_nonneg.mpr h0
  have hf1 : ⌊q⌋ ≤ 100 := by
    calc ⌊q⌋ ≤ ⌊(100 : ℚ)⌋ := Int.floor_le_floor h1
      _ = 100 := by norm_num
  have htn : Int.toNat ⌊q⌋ ≤ 2 ^ 32 - 1 := by omega
  rw [min_eq_left htn]
  exact Int.toNat_of_nonneg hf0

/-- Claim C2 (amended): for `0 < total` and `0 ≤ t`, the phase progress is
`min(100, t/total*100)` truncated to an integer (the `as u32` cast), the
overall value is `min(100, offset + phase/100*range)` likewise truncated,
and with no known total the phase progress is 0. -/
theorem claim_C2 (total t : ℚ) (offset range p : Nat)
    (htotal : 0 < total) (ht : 0 ≤ t) :
    (phase_progress (some total) t : ℤ) = ⌊min (100 : ℚ) (t / total * 100)⌋ ∧
    phase_progress none t = 0 ∧
    (overall_progress offset range p : ℤ)
      = ⌊min (100 : ℚ) ((offset : ℚ) + (p : ℚ) / 100 * (range : ℚ))⌋ := by
  refine ⟨?_, rfl, ?_⟩
  · unfold phase_progress
    have h0 : (0 : ℚ) ≤ min (t / total * 100) 100 :=
      le_min (mul_nonneg (div_nonneg ht htotal.le) (by norm_num)) (by norm_num)
    rw [u32cast_eq h0 (min_le_right _ _), min_comm]
  · unfold overall_progress
    have h0 : (0 : ℚ) ≤ min ((offset : ℚ) + (p : ℚ) / 100 * (range : ℚ)) 100 :=
      le_min (by positivity) (by norm_num)
    rw [u32cast_eq h0 (min_le_right _ _), min_comm]

lemma u32cast_val {q : ℚ} {n : ℕ} (h0 : 0 ≤ q) (h1 : q ≤ 100) (hfl : ⌊q⌋ = (n : ℤ)) :
    u32cast q = n := by
  have hc := u32cast_eq h0 h1
  rw [hfl] at hc
  exact_mod_cast hc

/-- Claim C2 counterexample: at `t = 1`, `total = 8` the tracker computes the
phase value 12, not `min(100, 1/8*100) = 12.5` — the claim omits the
truncation to an integer. -/
theorem claim_C2_counterexample :
    (phase_progress (some 8) 1 : ℚ) ≠ min (100 : ℚ) ((1 : ℚ) / 8 * 100) := by
  have h1 : phase_progress (some 8) 1 = 12 := by
    simp only [phase_progress]
    have hm : min ((1 : ℚ) / 8 * 100) 100 = 25 / 2 := by
      rw [min_eq_left (by norm_num)]
      norm_num
    rw [hm]
    exact u32cast_val (by norm_num) (by norm_num) (by rw [Int.floor_eq_iff]; norm_num)
  rw [h1, min_eq_right (by norm_num : (1 : ℚ) / 8 * 100 ≤ 100)]
  norm_num

/-- Claim C2 witness: concrete instance of the amended statement. -/
theorem claim_C2_witness :
    (phase_progress (some 8) 1 : ℤ) = ⌊min (100 : ℚ) ((1 : ℚ) / 8 * 100)⌋ ∧
    phase_progress none 1 = 0 ∧
    (overall_progress 10 50 12 : ℤ)
      = ⌊min (100 : ℚ) (((10 : Nat) : ℚ) + ((12 : Nat) : ℚ) / 100 * ((50 : Nat) : ℚ))⌋ :=
  claim_C2 8 1 10 50 12 (by norm_num) (by norm_num)

/-- Claim C6: a zero exit status with the declared output file absent yields
an output-validation failure; a non-zero exit status yields an execution
failure — in both `run` and `run_with_progress`. -/
theorem claim_C6 (b : FfmpegBuilder) (env : ExecEnv) (p : String)
    (hspawn : env.spawn_error = none) :
    (env.status_success = true → b.output = some p → p ∉ env.existing →
      FfmpegBuilder.runResult b env
        = Except.error (FFmpegError.OutputValidation "Output file was not created") ∧
      FfmpegBuilder.runWithProgressResult b env
        = Except.error (FFmpegError.OutputValidation "Output file was not created")) ∧
    (env.status_success = false →
      FfmpegBuilder.runResult b env
        = Except.error (FFmpegError.ExecutionFailed env.stderr_text) ∧
      FfmpegBuilder.runWithProgressResult b env
        = Except.error (FFmpegError.ExecutionFailed
            ("FFmpeg process exited with code: " ++ toString env.status_code))) := by
  constructor
  · intro hst hout hex
    constructor <;>
      simp [FfmpegBuilder.runResult, FfmpegBuilder.runWithProgressResult, hspawn, hst,
        hout, hex]
  · intro hst
    constructor <;>
      simp [FfmpegBuilder.runResult, FfmpegBuilder.runWithProgressResult, hspawn, hst]

/-- Claim C6 witness: successful exit but missing output file. -/
theorem claim_C6_witness :
    FfmpegBuilder.runResult (FfmpegBuilder.new.setOutput "out.mp4")
        ⟨none, true, some 0, "boom", []⟩
      = Except.error (FFmpegError.OutputValidation "Output file was not created") ∧
    FfmpegBuilder.runWithProgressResult (FfmpegBuilder.new.setOutput "out.mp4")
        ⟨none, true, some 0, "boom", []⟩
      = Except.error (FFmpegError.OutputValidation "Output file was not created") :=
  (claim_C6 (FfmpegBuilder.new.setOutput "out.mp4") ⟨none, true, some 0, "boom", []⟩
    "out.mp4" rfl).1 rfl rfl (by decide)

/-- Claim C7 counterexample: for clips of durations 10s/5s/5s the third
clip's window is `(67, 22)` — the truncated values of 67.5 and 22.5 — not
`(68, 23)` as the claim states. -/
lemma exportWindows_eval :
    exportWindows [(0, 10), (0, 5), (0, 5)] = [(0, 45), (45, 22), (67, 22), (90, 10)] := by
  have c00 : u32cast 0 = 0 := u32cast_val le_rfl (by norm_num) (by norm_num)
  have c45 : u32cast 45 = 45 := u32cast_val (by norm_num) (by norm_num) (by norm_num)
  have c22 : u32cast (45 / 2) = 22 :=
    u32cast_val (by norm_num) (by norm_num) (by rw [Int.floor_eq_iff]; norm_num)
  have c67 : u32cast (135 / 2) = 67 :=
    u32cast_val (by norm_num) (by norm_num) (by rw [Int.floor_eq_iff]; norm_num)
  have hd : clipDurations [(0, 10), (0, 5), (0, 5)] = [10, 5, 5] := by
    norm_num [clipDurations]
  unfold exportWindows
  rw [hd]
  have hsum : ([10, 5, 5] : List ℚ).sum = 20 := by norm_num
  rw [hsum]
  simp only [clipWindows]
  norm_num
  rw [c00, c45, c22, c67]
  simp

theorem claim_C7_counterexample :
    exportWindows [(0, 10), (0, 5), (0, 5)] = [(0, 45), (45, 22), (67, 22), (90, 10)] ∧
    ((67 : Nat), (22 : Nat)) ≠ ((68 : Nat), (23 : Nat)) := by
  refine ⟨exportWindows_eval, by decide⟩

/-- Claim C7 (amended): for clips of durations 10s/5s/5s the per-clip windows
are exactly offsets 0, 45, 67 with ranges 45, 22, 22, and the final concat
phase uses offset 90, range 10. -/
theorem claim_C7 :
    exportWindows [(0, 10), (0, 5), (0, 5)]
      = [(0, 45), (45, 22), (67, 22), (90, 10)] :=
  exportWindows_eval

lemma transcodeLoop_ok (env : ExportEnv) :
    ∀ (n i : Nat) (fs : List String), (∀ j, j < n → env.clipOk (i + j) = true) →
      ∃ fs2, transcodeLoop env i fs n
        = (Except.ok ((List.range n).map (fun j => tempClipName (i + j))), fs2) := by
  intro n
  induction n with
  | zero =>
    intro i fs _
    exact ⟨fs, rfl⟩
  | succ k ih =>
    intro i fs hok
    have h0 : env.clipOk i = true := by
      have := hok 0 (Nat.succ_pos k)
      simpa using this
    obtain ⟨fs2, hrec⟩ := ih (i + 1) (tempClipName i :: fs) (fun j hj => by
      have := hok (j + 1) (by omega)
      rwa [show i + (j + 1) = i + 1 + j by omega] at this)
    refine ⟨fs2, ?_⟩
    have hmap : (List.range (k + 1)).map (fun j => tempClipName (i + j))
        = tempClipName i :: (List.range k).map (fun j => tempClipName (i + 1 + j)) := by
      rw [List.range_succ_eq_map, List.map_cons, List.map_map]
      refine congrArg₂ List.cons (by simp) ?_
      apply List.map_congr_left
      intro j _
      simp only [Function.comp_apply]
      congr 1
      omega
    simp only [transcodeLoop, h0, if_true, hrec, hmap]

lemma mem_foldl_filter {l : List String} {p : String} :
    ∀ fs : List String, p ∈ l.foldl (fun s tp => s.filter (fun q => q ≠ tp)) fs →
      p ∈ fs ∧ p ∉ l := by
  induction l with
  | nil =>
    intro fs h
    exact ⟨h, by simp⟩
  | cons a rest ih =>
    intro fs h
    obtain ⟨hmem, hrest⟩ := ih (fs.filter (fun q => q ≠ a)) h
    rw [List.mem_filter] at hmem
    obtain ⟨hfs, hne⟩ := hmem
    refine ⟨hfs, ?_⟩
    simp only [List.mem_cons, not_or]
    exact ⟨by simpa using hne, hrest⟩

/-- Claim C1 (amended): scratch files are deleted whenever the job reaches
the final concat invocation — on concat success and concat failure alike;
corrected from the original claim, since an early per-clip or concat-list
failure returns without cleanup. -/
theorem claim_C1 (env : ExportEnv) (clips : List (ℚ × ℚ)) (op : String) (fs0 : List String)
    (hclips : ∀ i, i < clips.length → env.clipOk i = true)
    (hcreate : env.concatCreateOk = true) (hwrite : env.concatWriteOk = true) :
    ∀ p ∈ scratchNames clips.length, p ∉ (export_multi_clips_fs env clips op fs0).2 := by
  intro p hp hmem
  obtain ⟨fs2, hloop⟩ :=
    transcodeLoop_ok env clips.length 0 fs0 (fun j hj => by simpa using hclips j hj)
  unfold export_multi_clips_fs at hmem
  rw [hloop] at hmem
  simp only [hcreate, hwrite, if_true] at hmem
  rw [List.mem_filter] at hmem
  obtain ⟨hmem2, hneq⟩ := hmem
  obtain ⟨_, hnotin⟩ := mem_foldl_filter _ hmem2
  unfold scratchNames at hp
  rw [List.mem_append] at hp
  rcases hp with hp | hp
  · apply hnotin
    simpa using hp
  · simp only [List.mem_singleton] at hp
    subst hp
    simp at hneq

/-- Claim C1 counterexample: two clips, the second clip's transcode fails —
the job returns the error while `temp_clip_0.mp4` is still on disk. -/
theorem claim_C1_counterexample :
    tempClipName 0
      ∈ (export_multi_clips_fs ⟨fun i => i == 0, true, true, true⟩ [(0, 10), (0, 5)]
          "out.mp4" []).2 ∧
    (export_multi_clips_fs ⟨fun i => i == 0, true, true, true⟩ [(0, 10), (0, 5)]
        "out.mp4" []).1
      = Except.error "Failed to process clip 1: FFmpeg process exited" := by
  constructor
  · decide
  · rfl

/-- Claim C1 witness: on a run whose final concat invocation fails, the
scratch files are still removed. -/
theorem claim_C1_witness :
    "temp_clip_0.mp4"
      ∉ (export_multi_clips_fs ⟨fun _ => true, true, true, false⟩ [(0, 1), (0, 2)]
          "o.mp4" []).2 :=
  claim_C1 ⟨fun _ => true, true, true, false⟩ [(0, 1), (0, 2)] "o.mp4" []
    (fun _ _ => rfl) rfl rfl "temp_clip_0.mp4" (by decide)

end ClipForge
